import Mathlib

/-!
Verification of the CMS spending front-end (`src/Codefest25-main/frontend/script.js`
and the unnamed table-population script `src/unnamed/part_000`).

The scripts fetch a `DatasetResponse` (a JSON object mapping drug names to
parallel arrays `years`, `total_spending`, `avg_spending`), populate an HTML
table and a filter dropdown, accumulate per-drug totals for a pie chart, and
defer chart rendering to a button click.  We embed the data model, the fetch
continuation, the promise chain, the `filterTable` handler and the event-driven
UI as pure Lean functions, and prove the spec's testable properties about them.

Modelling conventions:
* A JSON object is an association list in insertion order (JS `Object.keys`
  iterates string keys in insertion order); key uniqueness is an explicit
  hypothesis where it matters.
* Numeric spending values are rationals; `Number.prototype.toFixed(2)` is
  modelled by `toFixed2` (round half away from zero to 2 decimal places, the
  ECMAScript algorithm, ignoring binary-float representation error, which does
  not affect the values appearing in the spec's scenarios).
* Accessing `a[i]` past the end of a JS array yields `undefined`, and the
  subsequent `.toFixed(2)` call throws a `TypeError`; this is modelled by the
  row builder returning `some "TypeError"` in its error component and
  truncating all later effects, exactly as a thrown exception aborts the
  surrounding `forEach` loops.
* An exception thrown inside a `.then(cb)` callback rejects the promise that
  `.then` returned; the `.catch` chained after it therefore handles both fetch
  rejection and exceptions thrown by the data handler.  `load` models the whole
  chain `fetch(...).then(r => r.json()).then(data => {...}).catch(err => ...)`:
  its `uncaught` component records any error that would escape the chain.
-/

/-- One drug's record in the response: `years`, `total_spending` and
`avg_spending` arrays, as consumed by `data[drug]` in the scripts. -/
structure DrugSeries where
  years : List Int
  total_spending : List Rat
  avg_spending : List Rat
deriving DecidableEq

/-- The response shape: a JSON object mapping drug name to `DrugSeries`,
kept as an association list in insertion order. -/
abbrev DatasetResponse := List (String × DrugSeries)

/-- The spec's well-formedness invariant: for every drug the three arrays
have equal length. -/
def ValidResponse (data : DatasetResponse) : Prop :=
  ∀ p ∈ data, p.2.total_spending.length = p.2.years.length ∧
    p.2.avg_spending.length = p.2.years.length

instance decValidResponse (data : DatasetResponse) : Decidable (ValidResponse data) :=
  List.decidableBAll _ data

/-- Two-digit zero padding for the fractional part of `toFixed(2)`. -/
def pad2 (n : Nat) : String :=
  if n < 10 then "0" ++ toString n else toString n

/-- `toFixed(2)` on a non-negative rational: round half up to an integer
number of cents, then print `intPart.fracPart`. -/
def toFixed2Nonneg (q : Rat) : String :=
  let cents : Nat := (Int.floor (q * 100 + 1 / 2)).toNat
  toString (cents / 100) ++ "." ++ pad2 (cents % 100)

/-- `Number.prototype.toFixed(2)`: ECMAScript prints the sign, then applies
round-half-away-from-zero to the magnitude. -/
def toFixed2 (q : Rat) : String :=
  if q < 0 then "-" ++ toFixed2Nonneg (-q) else toFixed2Nonneg q

/-- One `<tr>` appended to the table body: the four `<td>` contents produced
by the template literal `<td>${drug}</td><td>${year}</td>
<td>$${total.toFixed(2)}</td><td>$${avg.toFixed(2)}</td>`. -/
structure TableRow where
  drugCell : String
  yearCell : Int
  totalCell : String
  avgCell : String
deriving DecidableEq

/-- The inner `years.forEach((year, i) => ...)` row loop of `script.js`
(lines 25-34): `ts`/`avgs` are the cached `totalSpending` and
`data[drug].avg_spending` arrays, `i` the running index.  Out-of-bounds
access makes `.toFixed(2)` throw, which aborts the loop: the second
component records the thrown error, the first the rows appended before it. -/
def buildRowsFrom (drug : String) (ts avgs : List Rat) :
    List Int → Nat → List TableRow × Option String
  | [], _ => ([], none)
  | year :: rest, i =>
    match ts[i]?, avgs[i]? with
    | some t, some a =>
      let next := buildRowsFrom drug ts avgs rest (i + 1)
      (⟨drug, year, "$" ++ toFixed2 t, "$" ++ toFixed2 a⟩ :: next.1, next.2)
    | _, _ => ([], some "TypeError")

/-- All table rows the `script.js` row loop appends for one drug. -/
def buildRows (drug : String) (s : DrugSeries) : List TableRow × Option String :=
  buildRowsFrom drug s.total_spending s.avg_spending s.years 0

/-- One entry of the `datasets` array pushed for the line/bar charts
(colors are fresh random values on every call and carry no information,
so they are not modelled). -/
structure ChartDataset where
  label : String
  data : List Rat
deriving DecidableEq

/-- Everything the `Object.keys(data).forEach((drug, index) => ...)` body of
`script.js` (lines 18-53) produces: table rows, chart datasets, dropdown
options, the pie-aggregate object, and the error thrown (if any), which
truncates all effects of later iterations. -/
structure ThenEffects where
  rows : List TableRow
  datasets : List ChartDataset
  options : List String
  pie : List (String × Rat)
  threw : Option String
deriving DecidableEq

/-- The per-drug loop of the data handler.  For each drug it appends the
table rows, pushes a dataset, appends a dropdown option and stores
`totalSpending.reduce((a, b) => a + b, 0)` in the pie object; a throw in the
row loop skips the current drug's remaining statements and all later drugs. -/
def processDrugs : DatasetResponse → ThenEffects
  | [] => ⟨[], [], [], [], none⟩
  | (drug, s) :: rest =>
    let rs := buildRows drug s
    match rs.2 with
    | some e => ⟨rs.1, [], [], [], some e⟩
    | none =>
      let r := processDrugs rest
      ⟨rs.1 ++ r.rows,
        ⟨drug, s.total_spending⟩ :: r.datasets,
        drug :: r.options,
        (drug, s.total_spending.foldl (· + ·) 0) :: r.pie,
        r.threw⟩

/-- `if (index === 0) labels = years` (line 22): the chart label axis is the
first drug's `years`, captured before the first row loop runs. -/
def capturedLabels : DatasetResponse → List Int
  | [] => []
  | (_, s) :: _ => s.years

/-- Reading `totalSpendingData[drug]` from the pie-aggregate object. -/
def pieLookup (k : String) : List (String × Rat) → Option Rat
  | [] => none
  | (k2, v) :: rest => if k = k2 then some v else pieLookup k rest

/-- How the promise chain settles: `success` when the fetch resolved and
`response.json()` parsed, `failure` when the network request or the JSON
parse rejected. -/
inductive FetchOutcome where
  | success (data : DatasetResponse)
  | failure (err : String)
deriving DecidableEq

/-- The observable result of the whole load sequence
`fetch(API_URL).then(...).then(...).catch(...)`.  `listenerAttached` records
whether execution reached the `addEventListener` calls at the end of the data
handler (lines 55-66); `uncaught` is an error escaping the promise chain. -/
structure LoadResult where
  labels : List Int
  datasets : List ChartDataset
  pie : List (String × Rat)
  rows : List TableRow
  options : List String
  consoleLog : List String
  uncaught : Option String
  listenerAttached : Bool
deriving DecidableEq

/-- The load sequence.  On rejection the `.catch` handler logs and swallows
the error.  On success the data handler runs; if it throws, the exception
rejects the promise returned by `.then`, so the same `.catch` handler logs
and swallows it (the listeners are never attached).  In every case no error
escapes the chain: `uncaught = none`. -/
def load : FetchOutcome → LoadResult
  | .failure e =>
    ⟨[], [], [], [], [], ["Error fetching data: " ++ e], none, false⟩
  | .success data =>
    let eff := processDrugs data
    match eff.threw with
    | some e =>
      ⟨capturedLabels data, eff.datasets, eff.pie, eff.rows, eff.options,
        ["Error fetching data: " ++ e], none, false⟩
    | none =>
      ⟨capturedLabels data, eff.datasets, eff.pie, eff.rows, eff.options,
        [], none, true⟩

/-- A table row as `filterTable` sees it: `row.cells[0].textContent` and
`row.style.display`. -/
structure DisplayRow where
  drugName : String
  display : String
deriving DecidableEq

/-- `filterTable(selectedDrug)` (lines 103-109): for every row, set
`row.style.display` to `""` when `selectedDrug === "all"` or the drug cell
matches, and to `"none"` otherwise. -/
def filterTable (selectedDrug : String) (rows : List DisplayRow) : List DisplayRow :=
  rows.map fun row =>
    { row with
      display := if selectedDrug = "all" ∨ row.drugName = selectedDrug then "" else "none" }

/-! ### The unnamed script `src/unnamed/part_000`

Its data handler only populates the table: for each drug,
`data[drug].years.forEach((year, index) => ...)` appends a row built from
`data[drug].total_spending[index]` and `data[drug].avg_spending[index]`,
without caching the arrays in local variables. -/

/-- The inner row loop of `part_000` (lines 6-15), indexing
`s.total_spending` and `s.avg_spending` directly at each step. -/
def unnamedRowsFrom (drug : String) (s : DrugSeries) :
    List Int → Nat → List TableRow × Option String
  | [], _ => ([], none)
  | year :: rest, i =>
    match s.total_spending[i]?, s.avg_spending[i]? with
    | some t, some a =>
      let next := unnamedRowsFrom drug s rest (i + 1)
      (⟨drug, year, "$" ++ toFixed2 t, "$" ++ toFixed2 a⟩ :: next.1, next.2)
    | _, _ => ([], some "TypeError")

/-- The `Object.keys(data).forEach(drug => ...)` table-population loop of
`part_000` (lines 5-16): rows appended in order, a throw aborting the rest. -/
def unnamedPopulate : DatasetResponse → List TableRow × Option String
  | [] => ([], none)
  | (drug, s) :: rest =>
    let rs := unnamedRowsFrom drug s s.years 0
    match rs.2 with
    | some e => (rs.1, some e)
    | none =>
      let r := unnamedPopulate rest
      (rs.1 ++ r.1, r.2)

/-! ### The event-driven UI

`script.js` runs on the browser's single-threaded event loop.  The events
that can reach the page after `DOMContentLoaded` are the settling of the one
fetch, clicks on the show-charts button, and changes of the filter dropdown.
A promise settles at most once, so the fetch-settled event is processed at
most once; `step` encodes this with the `fetchHandled` flag.  The two
listeners are attached only at the end of a data handler run that did not
throw, so clicks and filter changes are no-ops before that point. -/

/-- The arguments `showCharts` passes to the three render calls: the
`labels`, `datasets` and `totalSpendingData` closure variables captured
during the load. -/
structure CapturedCharts where
  labels : List Int
  datasets : List ChartDataset
  pie : List (String × Rat)
deriving DecidableEq

/-- An event delivered by the browser event loop. -/
inductive UIEvent where
  | fetchSettled (outcome : FetchOutcome)
  | clickShowCharts
  | changeFilter (sel : String)
deriving DecidableEq

/-- The page state: chart-container `style.display` (set to `"none"` on
line 9), the arguments of the most recent chart render (if any), the data
captured for rendering, the table rows with their visibility, the dropdown
options, and the console log. -/
structure AppState where
  chartDisplay : String
  renderedCharts : Option CapturedCharts
  captured : Option CapturedCharts
  tableRows : List DisplayRow
  options : List String
  consoleLog : List String
  fetchHandled : Bool
  listenerAttached : Bool
deriving DecidableEq

/-- The state right after the `DOMContentLoaded` handler's synchronous
prefix: charts hidden, everything empty, fetch in flight. -/
def initState : AppState :=
  ⟨"none", none, none, [], [], [], false, false⟩

/-- One step of the event loop. -/
def step (s : AppState) : UIEvent → AppState
  | .fetchSettled outcome =>
    if s.fetchHandled then s
    else
      let r := load outcome
      { s with
        fetchHandled := true,
        tableRows := s.tableRows ++ r.rows.map fun t => ⟨t.drugCell, ""⟩,
        options := s.options ++ r.options,
        consoleLog := s.consoleLog ++ r.consoleLog,
        listenerAttached := r.listenerAttached,
        captured :=
          if r.listenerAttached then some ⟨r.labels, r.datasets, r.pie⟩ else none }
  | .clickShowCharts =>
    if s.listenerAttached then
      { s with chartDisplay := "block", renderedCharts := s.captured }
    else s
  | .changeFilter sel =>
    if s.listenerAttached then
      { s with tableRows := filterTable sel s.tableRows }
    else s

/-- Run the event loop from page load over a sequence of events. -/
def run (events : List UIEvent) : AppState :=
  events.foldl step initState

/-! ### Concrete data used in scenarios and witnesses -/

/-- The spec's single-drug scenario response. -/
def sampleData : DatasetResponse :=
  [("DrugA", ⟨[2020, 2021], [10, 20], [5, 10]⟩)]

/-- Two drugs with different `years` lengths (the spec's shared-axis
scenario); all per-drug arrays have matching lengths. -/
def twoDrugData : DatasetResponse :=
  [("DrugA", ⟨[2020, 2021], [10, 20], [5, 10]⟩),
   ("DrugB", ⟨[2019], [7], [7]⟩)]

/-- A malformed response: `total_spending` is shorter than `years`. -/
def shortData : DatasetResponse :=
  [("DrugA", ⟨[2020, 2021], [10], [5, 10]⟩)]

/-- A single-drug, single-year response. -/
def tinyData : DatasetResponse :=
  [("DrugB", ⟨[2019], [7], [7]⟩)]

/-- A concrete two-row table. -/
def rowsAB : List DisplayRow :=
  [⟨"DrugA", ""⟩, ⟨"DrugB", ""⟩]

/-- The chart-rendering invariant of the event loop: before the fetch is
handled nothing is rendered and no listener exists; a listener implies data
was captured; and any rendered charts show exactly the captured data, with
the container flipped to visible. -/
def ChartInv (s : AppState) : Prop :=
  (s.fetchHandled = false → s.renderedCharts = none ∧ s.listenerAttached = false) ∧
  (s.listenerAttached = true → (s.captured).isSome = true) ∧
  ∀ c, s.renderedCharts = some c → s.captured = some c ∧ s.chartDisplay = "block"

/-! ### Helper lemmas -/

/-- When both spending arrays cover every index the row loop will touch,
it does not throw and appends one row per year. -/
theorem buildRowsFrom_ok (drug : String) (ts avgs : List Rat) (years : List Int) :
    ∀ i, i + years.length ≤ ts.length → i + years.length ≤ avgs.length →
      (buildRowsFrom drug ts avgs years i).2 = none ∧
      (buildRowsFrom drug ts avgs years i).1.length = years.length := by
  induction years with
  | nil => intro i _ _; exact ⟨rfl, rfl⟩
  | cons year rest ih =>
    intro i h1 h2
    simp only [List.length_cons] at h1 h2
    have hi1 : i < ts.length := by omega
    have hi2 : i < avgs.length := by omega
    have ihr := ih (i + 1) (by omega) (by omega)
    simp only [buildRowsFrom, List.getElem?_eq_getElem hi1, List.getElem?_eq_getElem hi2,
      List.length_cons]
    exact ⟨ihr.1, by rw [ihr.2]⟩

/-- On a valid response the data handler does not throw, appends
`years.length` rows per drug, and produces the drug keys as options and the
per-drug spending sums as the pie object, all in response order. -/
theorem processDrugs_ok (data : DatasetResponse) (h : ValidResponse data) :
    (processDrugs data).threw = none ∧
    (processDrugs data).rows.length = (data.map fun p => p.2.years.length).sum ∧
    (processDrugs data).options = data.map Prod.fst ∧
    (processDrugs data).pie =
      data.map fun p => (p.1, p.2.total_spending.foldl (· + ·) 0) := by
  induction data with
  | nil => exact ⟨rfl, rfl, rfl, rfl⟩
  | cons p rest ih =>
    obtain ⟨drug, s⟩ := p
    have hp := h (drug, s) (List.mem_cons_self _ _)
    dsimp only at hp
    have hb := buildRowsFrom_ok drug s.total_spending s.avg_spending s.years 0
      (by omega) (by omega)
    have ihr := ih fun q hq => h q (List.mem_cons_of_mem _ hq)
    simp only [processDrugs, buildRows, hb.1, List.map_cons, List.sum_cons]
    refine ⟨ihr.1, ?_, ?_, ?_⟩
    · simp only [List.length_append, hb.2, ihr.2.1]
    · simp only [ihr.2.2.1]
    · simp only [ihr.2.2.2]

/-- The load sequence's table rows are those of the data handler,
whether or not the handler threw. -/
theorem load_success_rows (data : DatasetResponse) :
    (load (.success data)).rows = (processDrugs data).rows := by
  rcases h : (processDrugs data).threw with _ | e <;> simp [load, h]

/-- The load sequence's dropdown options are those of the data handler. -/
theorem load_success_options (data : DatasetResponse) :
    (load (.success data)).options = (processDrugs data).options := by
  rcases h : (processDrugs data).threw with _ | e <;> simp [load, h]

/-- The load sequence's pie object is that of the data handler. -/
theorem load_success_pie (data : DatasetResponse) :
    (load (.success data)).pie = (processDrugs data).pie := by
  rcases h : (processDrugs data).threw with _ | e <;> simp [load, h]

/-! ### Claims -/

/-- C1: for every valid `DatasetResponse`, the number of table rows the load
transformation appends to the table body equals the sum over all drugs of
that drug's `years.length` — with no assumption that different drugs have
equal `years` lengths. -/
theorem table_row_count (data : DatasetResponse) (h : ValidResponse data) :
    (load (.success data)).rows.length = (data.map fun p => p.2.years.length).sum := by
  rw [load_success_rows]
  exact (processDrugs_ok data h).2.1

/-- Witness for C1, at two drugs with different `years` lengths. -/
theorem table_row_count_witness :
    (load (.success twoDrugData)).rows.length =
      (twoDrugData.map fun p => p.2.years.length).sum :=
  table_row_count twoDrugData (by decide)

/-- C2: if the fetch (or the JSON parse) rejects, the catch handler logs the
error, no table rows or dropdown options are added, no exception escapes the
chain, and the chart container stays hidden. -/
theorem fetch_rejection_leaves_ui_empty (e : String) :
    (load (.failure e)).rows = [] ∧
    (load (.failure e)).options = [] ∧
    (load (.failure e)).consoleLog = ["Error fetching data: " ++ e] ∧
    (load (.failure e)).uncaught = none ∧
    (run [.fetchSettled (.failure e)]).tableRows = [] ∧
    (run [.fetchSettled (.failure e)]).options = [] ∧
    (run [.fetchSettled (.failure e)]).chartDisplay = "none" := by
  refine ⟨rfl, rfl, rfl, rfl, ?_, ?_, ?_⟩ <;>
    simp [run, step, initState, load]

/-- Witness for C2, at a concrete rejection reason. -/
theorem fetch_rejection_leaves_ui_empty_witness :
    (load (.failure "NetworkError")).rows = [] ∧
    (load (.failure "NetworkError")).options = [] ∧
    (load (.failure "NetworkError")).consoleLog =
      ["Error fetching data: " ++ "NetworkError"] ∧
    (load (.failure "NetworkError")).uncaught = none ∧
    (run [.fetchSettled (.failure "NetworkError")]).tableRows = [] ∧
    (run [.fetchSettled (.failure "NetworkError")]).options = [] ∧
    (run [.fetchSettled (.failure "NetworkError")]).chartDisplay = "none" :=
  fetch_rejection_leaves_ui_empty "NetworkError"

/-- The row loop throws as soon as it reaches an index that one of the two
spending arrays does not cover. -/
theorem buildRowsFrom_throws (drug : String) (ts avgs : List Rat) (years : List Int) :
    ∀ i, (i ≤ ts.length ∧ ts.length < i + years.length) ∨
      (i ≤ avgs.length ∧ avgs.length < i + years.length) →
      ((buildRowsFrom drug ts avgs years i).2).isSome = true := by
  induction years with
  | nil => intro i h; simp only [List.length_nil] at h; omega
  | cons year rest ih =>
    intro i h
    simp only [List.length_cons] at h
    by_cases h1 : i < ts.length
    · by_cases h2 : i < avgs.length
      · have ihr := ih (i + 1) (by omega)
        simp only [buildRowsFrom, List.getElem?_eq_getElem h1, List.getElem?_eq_getElem h2]
        exact ihr
      · have e2 : avgs[i]? = none := List.getElem?_eq_none (by omega)
        simp [buildRowsFrom, List.getElem?_eq_getElem h1, e2]
    · have e1 : ts[i]? = none := List.getElem?_eq_none (by omega)
      simp [buildRowsFrom, e1]

/-- If any drug's `total_spending` or `avg_spending` is shorter than its
`years`, the data handler throws. -/
theorem processDrugs_throws (data : DatasetResponse) (p : String × DrugSeries)
    (hp : p ∈ data)
    (hshort : p.2.total_spending.length < p.2.years.length ∨
      p.2.avg_spending.length < p.2.years.length) :
    ((processDrugs data).threw).isSome = true := by
  induction data with
  | nil => cases hp
  | cons q rest ih =>
    obtain ⟨drug, s⟩ := q
    rcases List.mem_cons.1 hp with hq | hq
    · subst hq
      dsimp only at hshort
      have hb := buildRowsFrom_throws drug s.total_spending s.avg_spending s.years 0
        (by omega)
      obtain ⟨e, he⟩ := Option.isSome_iff_exists.1 hb
      simp [processDrugs, buildRows, he]
    · rcases hb : (buildRows drug s).2 with _ | e
      · simpa [processDrugs, hb] using ih hq
      · simp [processDrugs, hb]

/-- Whatever the data handler did, no error escapes the promise chain. -/
theorem load_success_uncaught (data : DatasetResponse) :
    (load (.success data)).uncaught = none := by
  rcases h : (processDrugs data).threw with _ | e <;> simp [load, h]

/-- Counterexample to C3 as stated: on `shortData` (whose `total_spending`
is shorter than its `years`) the row loop does throw, but the thrown error
rejects the promise returned by `.then` and the chain's `.catch` handler
catches and logs it — the claim that the load sequence's error handler does
not catch it is false. -/
theorem short_arrays_error_is_caught_cx :
    ((processDrugs shortData).threw).isSome = true ∧
    (load (.success shortData)).uncaught = none ∧
    (load (.success shortData)).consoleLog = ["Error fetching data: TypeError"] := by
  have h : (processDrugs shortData).threw = some "TypeError" := by
    simp [processDrugs, buildRows, buildRowsFrom, shortData]
  exact ⟨by simp [h], by simp [load, h], by simp [load, h]⟩

/-- C3 (amended): if some drug's `total_spending` or `avg_spending` sequence
is shorter than its `years` sequence, the load transformation fails with a
runtime error, which is caught by the load sequence's `.catch` handler and
logged; no unhandled exception escapes, and the success-path listeners are
never attached. -/
theorem short_arrays_error_caught (data : DatasetResponse) (p : String × DrugSeries)
    (hp : p ∈ data)
    (hshort : p.2.total_spending.length < p.2.years.length ∨
      p.2.avg_spending.length < p.2.years.length) :
    ((processDrugs data).threw).isSome = true ∧
    (load (.success data)).uncaught = none ∧
    (load (.success data)).consoleLog ≠ [] ∧
    (load (.success data)).listenerAttached = false := by
  have ht := processDrugs_throws data p hp hshort
  obtain ⟨e, he⟩ := Option.isSome_iff_exists.1 ht
  exact ⟨ht, load_success_uncaught data, by simp [load, he], by simp [load, he]⟩

/-- Witness for the amended C3, at `shortData`. -/
theorem short_arrays_error_caught_witness :
    ((processDrugs shortData).threw).isSome = true ∧
    (load (.success shortData)).uncaught = none ∧
    (load (.success shortData)).consoleLog ≠ [] ∧
    (load (.success shortData)).listenerAttached = false :=
  short_arrays_error_caught shortData ("DrugA", ⟨[2020, 2021], [10], [5, 10]⟩)
    (List.mem_cons_self _ _) (by decide)

/-- Looking up a key in the image of a key-preserving map over an
association list with distinct keys finds that key's image. -/
theorem pieLookup_map (f : DrugSeries → Rat) :
    ∀ (l : DatasetResponse) (D : String) (s : DrugSeries),
      (l.map Prod.fst).Nodup → (D, s) ∈ l →
      pieLookup D (l.map fun p => (p.1, f p.2)) = some (f s) := by
  intro l
  induction l with
  | nil => intro D s _ hm; cases hm
  | cons q rest ih =>
    intro D s hnd hm
    obtain ⟨k, t⟩ := q
    simp only [List.map_cons, pieLookup]
    by_cases hD : D = k
    · subst hD
      rcases List.mem_cons.1 hm with hq | hq
      · rw [if_pos rfl]
        have hst : s = t := (Prod.mk.injEq .. ▸ hq).2
        rw [hst]
      · exfalso
        have : D ∈ rest.map Prod.fst := List.mem_map.2 ⟨(D, s), hq, rfl⟩
        exact (List.nodup_cons.1 hnd).1 this
    · rw [if_neg hD]
      refine ih D s (List.nodup_cons.1 hnd).2 ?_
      rcases List.mem_cons.1 hm with hq | hq
      · exact absurd (congrArg Prod.fst hq) hD
      · exact hq

/-- C4: for every drug `D` of a valid response (drug keys being unique, as
JSON object keys are), the pie aggregate entry for `D` equals the sum of all
elements of `D`'s `total_spending` sequence, the empty sequence summing
to 0. -/
theorem pie_aggregate_eq_sum (data : DatasetResponse) (h : ValidResponse data)
    (hnd : (data.map Prod.fst).Nodup) (D : String) (s : DrugSeries)
    (hmem : (D, s) ∈ data) :
    pieLookup D (load (.success data)).pie =
      some (s.total_spending.foldl (· + ·) 0) := by
  rw [load_success_pie, (processDrugs_ok data h).2.2.2]
  exact pieLookup_map (fun t => t.total_spending.foldl (· + ·) 0) data D s hnd hmem

/-- Witness for C4, at the second drug of `twoDrugData`. -/
theorem pie_aggregate_eq_sum_witness :
    pieLookup "DrugB" (load (.success twoDrugData)).pie =
      some ((⟨[2019], [7], [7]⟩ : DrugSeries).total_spending.foldl (· + ·) 0) :=
  pie_aggregate_eq_sum twoDrugData (by decide) (by decide) "DrugB" ⟨[2019], [7], [7]⟩
    (List.mem_cons_of_mem _ (List.mem_cons_self _ _))

/-- C5: after a successful load the dropdown options are exactly the drug
keys of the response in order — hence the same set of names, each appearing
exactly once when the keys are distinct. -/
theorem dropdown_options_eq_keys (data : DatasetResponse) (h : ValidResponse data) :
    (load (.success data)).options = data.map Prod.fst ∧
    (∀ k, k ∈ (load (.success data)).options ↔ k ∈ data.map Prod.fst) ∧
    ((data.map Prod.fst).Nodup → ((load (.success data)).options).Nodup) := by
  have ho : (load (.success data)).options = data.map Prod.fst := by
    rw [load_success_options]
    exact (processDrugs_ok data h).2.2.1
  exact ⟨ho, fun k => by rw [ho], fun hnd => by rw [ho]; exact hnd⟩

/-- Witness for C5, at `twoDrugData`. -/
theorem dropdown_options_eq_keys_witness :
    (load (.success twoDrugData)).options = twoDrugData.map Prod.fst :=
  (dropdown_options_eq_keys twoDrugData (by decide)).1

/-- C6: `filterTable "all"` makes every table row visible; for a drug name
`D` (not the sentinel), `filterTable D` makes exactly the rows whose drug
cell equals `D` visible and hides all other rows, preserving each row's drug
cell and the row order. -/
theorem filterTable_visibility (rows : List DisplayRow) (D : String) :
    filterTable "all" rows = rows.map (fun r => ⟨r.drugName, ""⟩) ∧
    (D ≠ "all" →
      filterTable D rows =
        rows.map fun r => ⟨r.drugName, if r.drugName = D then "" else "none"⟩) := by
  constructor
  · simp [filterTable]
  · intro hD
    simp [filterTable, hD]

/-- Witness for C6, filtering a two-drug table by "DrugA". -/
theorem filterTable_visibility_witness :
    filterTable "DrugA" rowsAB =
      rowsAB.map fun r => ⟨r.drugName, if r.drugName = "DrugA" then "" else "none"⟩ :=
  (filterTable_visibility rowsAB "DrugA").2 (by decide)

/-- C7: on the single-drug response
`{"DrugA": {years: [2020, 2021], total_spending: [10, 20], avg_spending: [5, 10]}}`
the load transformation produces exactly the two table rows
`(DrugA, 2020, $10.00, $5.00)` and `(DrugA, 2021, $20.00, $10.00)` in that
order, the single dropdown option "DrugA", and the pie aggregate
`{DrugA: 30}`. -/
theorem scenario_single_drug :
    (load (.success sampleData)).rows =
      [⟨"DrugA", 2020, "$10.00", "$5.00"⟩, ⟨"DrugA", 2021, "$20.00", "$10.00"⟩] ∧
    (load (.success sampleData)).options = ["DrugA"] ∧
    (load (.success sampleData)).pie = [("DrugA", 30)] := by
  simp only [load, sampleData, processDrugs, buildRows, buildRowsFrom, capturedLabels,
    toFixed2, toFixed2Nonneg, pad2, List.getElem?_cons_zero, List.getElem?_cons_succ,
    List.foldl]
  norm_num
  decide

/-- Preservation of the chart-rendering invariant by every event. -/
theorem step_chartInv (s : AppState) (e : UIEvent) (h : ChartInv s) :
    ChartInv (step s e) := by
  obtain ⟨h1, h2, h3⟩ := h
  cases e with
  | fetchSettled outcome =>
    rcases hf : s.fetchHandled with _ | _
    · have hs : step s (.fetchSettled outcome) =
          { s with
            fetchHandled := true,
            tableRows := s.tableRows ++ (load outcome).rows.map fun t => ⟨t.drugCell, ""⟩,
            options := s.options ++ (load outcome).options,
            consoleLog := s.consoleLog ++ (load outcome).consoleLog,
            listenerAttached := (load outcome).listenerAttached,
            captured :=
              if (load outcome).listenerAttached then
                some ⟨(load outcome).labels, (load outcome).datasets, (load outcome).pie⟩
              else none } := by
        simp [step, hf]
      rw [hs]
      refine ⟨fun hc => by simp at hc, fun hl => ?_, fun c hc => ?_⟩
      · simp only at hl ⊢
        simp [hl]
      · exact absurd ((h1 hf).1 ▸ hc) (by simp)
    · have hs : step s (.fetchSettled outcome) = s := by simp [step, hf]
      rw [hs]
      exact ⟨h1, h2, h3⟩
  | clickShowCharts =>
    rcases hl : s.listenerAttached with _ | _
    · have hs : step s .clickShowCharts = s := by simp [step, hl]
      rw [hs]
      exact ⟨h1, h2, h3⟩
    · have hs : step s .clickShowCharts =
          { s with chartDisplay := "block", renderedCharts := s.captured } := by
        simp [step, hl]
      rw [hs]
      refine ⟨fun hc => absurd hl ?_, fun _ => h2 hl, fun c hc => ⟨hc, rfl⟩⟩
      simp [(h1 hc).2]
  | changeFilter sel =>
    rcases hl : s.listenerAttached with _ | _
    · have hs : step s (.changeFilter sel) = s := by simp [step, hl]
      rw [hs]
      exact ⟨h1, h2, h3⟩
    · have hs : step s (.changeFilter sel) =
          { s with tableRows := filterTable sel s.tableRows } := by
        simp [step, hl]
      rw [hs]
      exact ⟨h1, h2, h3⟩

/-- The chart-rendering invariant is preserved along any event sequence. -/
theorem foldl_chartInv (events : List UIEvent) :
    ∀ s, ChartInv s → ChartInv (events.foldl step s) := by
  induction events with
  | nil => intro s h; exact h
  | cons e rest ih => intro s h; exact ih _ (step_chartInv s e h)

/-- The initial page state satisfies the chart-rendering invariant. -/
theorem initState_chartInv : ChartInv initState :=
  ⟨fun _ => ⟨rfl, rfl⟩, fun h => Bool.noConfusion h, fun _ hc => Option.noConfusion hc⟩

/-- Without a show-charts click, no event ever renders a chart or flips the
chart container's visibility. -/
theorem foldl_no_click (events : List UIEvent) :
    ∀ s, UIEvent.clickShowCharts ∉ events →
      s.renderedCharts = none → s.chartDisplay = "none" →
      (events.foldl step s).renderedCharts = none ∧
      (events.foldl step s).chartDisplay = "none" := by
  induction events with
  | nil => intro s _ hr hd; exact ⟨hr, hd⟩
  | cons e rest ih =>
    intro s hne hr hd
    have hne' : UIEvent.clickShowCharts ∉ rest := fun hm => hne (List.mem_cons_of_mem _ hm)
    have he : e ≠ UIEvent.clickShowCharts := fun hq => hne (hq ▸ List.mem_cons_self _ _)
    refine ih (step s e) hne' ?_ ?_
    · cases e with
      | fetchSettled outcome =>
        by_cases hf : s.fetchHandled = true <;> simp [step, hf, hr]
      | clickShowCharts => exact absurd rfl he
      | changeFilter sel =>
        by_cases hl : s.listenerAttached = true <;> simp [step, hl, hr]
    · cases e with
      | fetchSettled outcome =>
        by_cases hf : s.fetchHandled = true <;> simp [step, hf, hd]
      | clickShowCharts => exact absurd rfl he
      | changeFilter sel =>
        by_cases hl : s.listenerAttached = true <;> simp [step, hl, hd]

/-- C8: in every execution of the event loop, if no show-charts click
occurs then no chart is rendered and the chart container stays hidden (in
particular nothing is rendered during `load()`); and whenever charts are
rendered, the container is visible and the rendered labels, datasets and pie
aggregate are exactly the data captured during `load()`. -/
theorem charts_render_only_on_click (events : List UIEvent) :
    (UIEvent.clickShowCharts ∉ events →
      (run events).renderedCharts = none ∧ (run events).chartDisplay = "none") ∧
    ∀ c, (run events).renderedCharts = some c →
      (run events).captured = some c ∧ (run events).chartDisplay = "block" :=
  ⟨fun h => foldl_no_click events initState h rfl rfl,
    (foldl_chartInv events initState initState_chartInv).2.2⟩

/-- Witness for C8: a load-only trace renders nothing; a load-then-click
trace renders exactly the captured data. -/
theorem charts_render_only_on_click_witness :
    ((run [UIEvent.fetchSettled (.success tinyData)]).renderedCharts = none ∧
      (run [UIEvent.fetchSettled (.success tinyData)]).chartDisplay = "none") ∧
    ((run [UIEvent.fetchSettled (.success tinyData), UIEvent.clickShowCharts]).captured =
        some ⟨[2019], [⟨"DrugB", [7]⟩], [("DrugB", 7)]⟩ ∧
      (run [UIEvent.fetchSettled (.success tinyData), UIEvent.clickShowCharts]).chartDisplay =
        "block") := by
  refine ⟨(charts_render_only_on_click _).1 (by decide),
    (charts_render_only_on_click _).2 ⟨[2019], [⟨"DrugB", [7]⟩], [("DrugB", 7)]⟩ ?_⟩
  simp [run, step, initState, load, processDrugs, buildRows, buildRowsFrom,
    capturedLabels, tinyData]

/-- C9: `filterTable` is idempotent — applying it twice with the same
selection leaves every row exactly as one application does, for every table
state and every selection. -/
theorem filterTable_idempotent (sel : String) (rows : List DisplayRow) :
    filterTable sel (filterTable sel rows) = filterTable sel rows := by
  simp only [filterTable, List.map_map]
  apply List.map_congr_left
  intro a _
  rfl

/-- Witness for C9, at a concrete selection and table. -/
theorem filterTable_idempotent_witness :
    filterTable "DrugA" (filterTable "DrugA" rowsAB) = filterTable "DrugA" rowsAB :=
  filterTable_idempotent "DrugA" rowsAB

/-- The two row loops agree step by step: caching the spending arrays in
locals (as `script.js` does) versus re-reading them from the drug record (as
the unnamed script does) yields the same rows and the same error. -/
theorem unnamedRowsFrom_eq (drug : String) (s : DrugSeries) (years : List Int) :
    ∀ i, unnamedRowsFrom drug s years i =
      buildRowsFrom drug s.total_spending s.avg_spending years i := by
  induction years with
  | nil => intro i; rfl
  | cons y rest ih =>
    intro i
    rcases h1 : s.total_spending[i]? with _ | t <;>
      rcases h2 : s.avg_spending[i]? with _ | a <;>
      simp [unnamedRowsFrom, buildRowsFrom, h1, h2, ih]

/-- The unnamed script's table-population loop appends exactly the rows the
`script.js` data handler appends, on every response. -/
theorem unnamedPopulate_rows (data : DatasetResponse) :
    (unnamedPopulate data).1 = (processDrugs data).rows := by
  induction data with
  | nil => rfl
  | cons q rest ih =>
    obtain ⟨drug, s⟩ := q
    rcases hb : (buildRowsFrom drug s.total_spending s.avg_spending s.years 0).2 with _ | e
    · simp [unnamedPopulate, processDrugs, buildRows, unnamedRowsFrom_eq, hb, ih]
    · simp [unnamedPopulate, processDrugs, buildRows, unnamedRowsFrom_eq, hb]

/-- C10: for every valid response, the table-population loop of the unnamed
script appends the same sequence of table rows — same count, same order,
same drug, year and formatted spending cells — as the `script.js` load
transformation. -/
theorem unnamed_table_matches_script (data : DatasetResponse) (h : ValidResponse data) :
    (unnamedPopulate data).1 = (load (.success data)).rows := by
  rw [unnamedPopulate_rows, load_success_rows]

/-- Witness for C10, at the spec's single-drug scenario response. -/
theorem unnamed_table_matches_script_witness :
    (unnamedPopulate sampleData).1 = (load (.success sampleData)).rows :=
  unnamed_table_matches_script sampleData (by decide)
